/-
Verification of the client-side data/cache layer of the TechChall3 posts
application: the posts reducer (`PostsContext.tsx`), the cache-validity
check, the HTTP response interceptor (`services/api.ts`), the `getPosts`
response normalization, and the authentication session store
(`AuthContext.tsx`).

Numbers coming from JavaScript are modelled as `Int` (timestamps) and
strings as `String`.  JavaScript `null`/absent values are modelled with
`Option`.  Where JavaScript truthiness matters (`!state.lastFetch`,
`data._id`, `post.description || ...`) it is modelled explicitly.
-/
import Mathlib

namespace TechChall

/-! ## Posts data model (`services/api.ts`, interface Post) -/

/-- A post as typed in `services/api.ts`.  The source field `description?`
is optional, hence `Option String` here. -/
structure Post where
  _id : String
  title : String
  author : String
  content : String
  description : Option String
  createdAt : String
  updatedAt : String
deriving Repr, DecidableEq

/-- The reducer state of `PostsContext.tsx` (`interface PostsState`).
`lastFetch : number | null` is an `Option Int` timestamp. -/
structure PostsState where
  posts : List Post
  currentPost : Option Post
  loading : Bool
  error : Option String
  lastFetch : Option Int
  cacheExpiry : Int
deriving Repr, DecidableEq

/-- The `initialState` of `PostsContext.tsx`: `cacheExpiry = 5 * 60 * 1000`. -/
def initialState : PostsState :=
  { posts := []
    currentPost := none
    loading := false
    error := none
    lastFetch := none
    cacheExpiry := 5 * 60 * 1000 }

/-- The action union of `PostsContext.tsx` (`type PostsAction`). -/
inductive PostsAction where
  | fetchPostsStart
  | fetchPostsSuccess (payload : List Post)
  | fetchPostsError (payload : String)
  | fetchPostStart
  | fetchPostSuccess (payload : Post)
  | fetchPostError (payload : String)
  | createPostStart
  | createPostSuccess (payload : Post)
  | createPostError (payload : String)
  | updatePostStart
  | updatePostSuccess (payload : Post)
  | updatePostError (payload : String)
  | deletePostStart
  | deletePostSuccess (payload : String)
  | deletePostError (payload : String)
  | clearError
  | clearCurrentPost
deriving Repr, DecidableEq

/-- The function `postsReducer` of `PostsContext.tsx`.  `Date.now()` in the
`FETCH_POSTS_SUCCESS` branch is made explicit as the parameter `now`. -/
def postsReducer (now : Int) (state : PostsState) (action : PostsAction) :
    PostsState :=
  match action with
  | .fetchPostsStart =>
      { state with loading := true, error := none }
  | .fetchPostsSuccess payload =>
      { state with
          posts := payload
          loading := false
          error := none
          lastFetch := some now }
  | .fetchPostsError payload =>
      { state with loading := false, error := some payload }
  | .fetchPostStart =>
      { state with loading := true, error := none, currentPost := none }
  | .fetchPostSuccess payload =>
      { state with currentPost := some payload, loading := false, error := none }
  | .fetchPostError payload =>
      { state with loading := false, error := some payload, currentPost := none }
  | .createPostStart =>
      { state with loading := true, error := none }
  | .createPostSuccess payload =>
      { state with
          posts := payload :: state.posts
          loading := false
          error := none }
  | .createPostError payload =>
      { state with loading := false, error := some payload }
  | .updatePostStart =>
      { state with loading := true, error := none }
  | .updatePostSuccess payload =>
      { state with
          posts := state.posts.map fun post =>
            if post._id = payload._id then payload else post
          currentPost :=
            match state.currentPost with
            | some c => if c._id = payload._id then some payload else some c
            | none => none
          loading := false
          error := none }
  | .updatePostError payload =>
      { state with loading := false, error := some payload }
  | .deletePostStart =>
      { state with loading := true, error := none }
  | .deletePostSuccess payload =>
      { state with
          posts := state.posts.filter fun post => post._id ≠ payload
          currentPost :=
            match state.currentPost with
            | some c => if c._id = payload then none else some c
            | none => none
          loading := false
          error := none }
  | .deletePostError payload =>
      { state with loading := false, error := some payload }
  | .clearError =>
      { state with error := none }
  | .clearCurrentPost =>
      { state with currentPost := none }

/-- The callback `isCacheValid` of `PostsContext.tsx`:
`if (!state.lastFetch) return false; return Date.now() - state.lastFetch <
state.cacheExpiry;`.  JavaScript `!x` on `number | null` is true for `null`
and for `0`, so both yield `false` here. -/
def isCacheValid (now : Int) (state : PostsState) : Bool :=
  match state.lastFetch with
  | none => false
  | some t => if t = 0 then false else decide (now - t < state.cacheExpiry)

/-! ## Browser storage and the authentication session store
(`AuthContext.tsx`, `services/api.ts` interceptor)

`sessionStorage` holds the key `accessToken`; `localStorage` holds the
keys `refreshToken` and `user`.  The three slots are gathered in one
record; the stored JSON user profile is modelled as the record itself. -/

/-- The `interface User` of `services/api.ts`; `role` is a string at runtime. -/
structure User where
  _id : String
  name : String
  email : String
  role : String
deriving Repr, DecidableEq

/-- The browser storage slots touched by this layer. -/
structure BrowserStorage where
  /-- `sessionStorage.accessToken` (short-lived, tab-scoped). -/
  accessToken : Option String
  /-- `localStorage.refreshToken` (durable). -/
  refreshToken : Option String
  /-- `localStorage.user` (durable cached profile). -/
  userProfile : Option User
deriving Repr, DecidableEq

/-- The `interface AuthTokens` of `services/api.ts`. -/
structure AuthTokens where
  accessToken : String
  refreshToken : Option String
deriving Repr, DecidableEq

/-- The helper `storeTokens` of `AuthContext.tsx`: always writes the access token to
`sessionStorage`; writes the refresh token to `localStorage` only when one
is present (`if (tokens.refreshToken)`). -/
def storeTokens (tokens : AuthTokens) (st : BrowserStorage) : BrowserStorage :=
  { st with
      accessToken := some tokens.accessToken
      refreshToken :=
        match tokens.refreshToken with
        | some r => some r
        | none => st.refreshToken }

/-- The helper `clearTokens` of `AuthContext.tsx`: removes `accessToken` from
`sessionStorage` and `refreshToken` from `localStorage` (not the cached
`user` profile, which its callers remove separately). -/
def clearTokens (st : BrowserStorage) : BrowserStorage :=
  { st with accessToken := none, refreshToken := none }

/-- The in-memory state of `AuthProvider` plus the browser storage. -/
structure AuthState where
  storage : BrowserStorage
  user : Option User
  isLoading : Bool
  error : Option String
deriving Repr, DecidableEq

/-- The derived flag `isAuthenticated: !!user` of `AuthContext.tsx`: derived, not stored. -/
def isAuthenticated (s : AuthState) : Bool :=
  s.user.isSome

/-- The `interface LoginResponse` of `services/api.ts`. -/
structure LoginResponse where
  accessToken : String
  refreshToken : Option String
  user : User
deriving Repr, DecidableEq

/-- The success path of `login` in `AuthContext.tsx`: store tokens, then
set the in-memory user and persist the profile to `localStorage`, both
overridden as `{ ...response.user, role: "professor", name:
response.user.email }`; `finally` clears the loading flag. -/
def loginSuccess (response : LoginResponse) (s : AuthState) : AuthState :=
  let storedUser : User :=
    { response.user with role := "professor", name := response.user.email }
  { s with
      storage :=
        { storeTokens
            { accessToken := response.accessToken
              refreshToken := response.refreshToken } s.storage with
          userProfile := some storedUser }
      user := some storedUser
      error := none
      isLoading := false }

/-- The function `logout` of `AuthContext.tsx`: `try { await authApi.logout() } catch
{ console.error } finally { setUser(null); clearTokens();
localStorage.removeItem("user") }`.  Whether the remote call succeeds
(`remoteOk`) does not reach the `finally` block's effects. -/
def logout (remoteOk : Bool) (s : AuthState) : AuthState :=
  match remoteOk with
  | true =>
      { s with
          user := none
          storage := { clearTokens s.storage with userProfile := none } }
  | false =>
      { s with
          user := none
          storage := { clearTokens s.storage with userProfile := none } }

/-! ## The response interceptor (`services/api.ts`,
`api.interceptors.response.use`)

One invocation of the error handler is modelled as a pure function of the
observable inputs: the response status, the `_retry` flag already on the
request, the storage, and the outcome the environment would give to a
refresh call if one is made.  The output records the new storage, how many
refresh calls were made, any `window.location.href` assignment, and what
the handler returns. -/

/-- Outcome of the environment's `authApi.refreshToken` call, were it
made: new tokens, or a rejection. -/
inductive RefreshResult where
  | ok (tokens : AuthTokens)
  | fail
deriving Repr, DecidableEq

/-- What the error handler returns to the HTTP library. -/
inductive InterceptOutcome where
  /-- `return api(originalRequest)`: replay the original request, whose
  `Authorization` header is now `auth` and whose `_retry` flag is set. -/
  | replayOriginal (auth : String) (retryFlag : Bool)
  /-- `return Promise.reject(error)`: the original error goes to the caller. -/
  | rejectOriginal
  /-- `return Promise.reject(refreshError)`: the refresh failure goes to the
  caller instead of the original error. -/
  | rejectRefreshError
deriving Repr, DecidableEq

/-- The observable effects of one run of the response-error handler. -/
structure InterceptStep where
  store : BrowserStorage
  refreshCalls : Nat
  redirect : Option String
  outcome : InterceptOutcome
deriving Repr, DecidableEq

/-- The response-error handler of `services/api.ts`.  `retried` is
`originalRequest._retry`; `status` is `error.response?.status`.  Inside the
guard, `localStorage.getItem("refreshToken")` is read; if absent the `try`
block falls through without an exception and the handler reaches the final
`Promise.reject(error)`.  A failing `authApi.refreshToken` throws into the
`catch`, which clears all three storage slots, assigns
`window.location.href = "/login"`, and rejects the refresh error.  The
replayed request (`return api(originalRequest)`) is not awaited inside the
`try`, so its own failure is not caught here. -/
def handleResponseError (retried : Bool) (status : Option Int)
    (store : BrowserStorage) (refresh : RefreshResult) : InterceptStep :=
  if status = some 401 ∧ retried = false then
    -- originalRequest._retry = true
    match store.refreshToken with
    | some _ =>
        match refresh with
        | .ok newTokens =>
            let store1 : BrowserStorage :=
              { store with
                  accessToken := some newTokens.accessToken
                  refreshToken :=
                    match newTokens.refreshToken with
                    | some r => some r
                    | none => store.refreshToken }
            { store := store1
              refreshCalls := 1
              redirect := none
              outcome :=
                .replayOriginal ("Bearer " ++ newTokens.accessToken) true }
        | .fail =>
            { store :=
                { accessToken := none, refreshToken := none, userProfile := none }
              refreshCalls := 1
              redirect := some "/login"
              outcome := .rejectRefreshError }
    | none =>
        { store := store
          refreshCalls := 0
          redirect := none
          outcome := .rejectOriginal }
  else
    { store := store
      refreshCalls := 0
      redirect := none
      outcome := .rejectOriginal }

/-! ## JavaScript values and the `getPosts` response normalization
(`services/api.ts`, `postsApi.getPosts`)

The server body `response.data` is untyped, and `getPosts` probes it
dynamically (`Array.isArray`, `typeof`, truthiness of `data._id` and
`data.posts`), so it is modelled as a JavaScript-like value.  `NaN` and
exotic objects are not modelled; strings count characters where
JavaScript counts UTF-16 units. -/

inductive JsVal where
  | null
  | undefined
  | bool (b : Bool)
  | num (n : Int)
  | str (s : String)
  | arr (items : List JsVal)
  | obj (fields : List (String × JsVal))

/-- JavaScript truthiness. -/
def truthy : JsVal → Bool
  | .null => false
  | .undefined => false
  | .bool b => b
  | .num n => n != 0
  | .str s => s != ""
  | .arr _ => true
  | .obj _ => true

/-- JavaScript `typeof`; note `typeof null == "object"`. -/
def jsTypeof : JsVal → String
  | .null => "object"
  | .undefined => "undefined"
  | .bool _ => "boolean"
  | .num _ => "number"
  | .str _ => "string"
  | .arr _ => "object"
  | .obj _ => "object"

/-- JavaScript `Array.isArray`. -/
def isArray : JsVal → Bool
  | .arr _ => true
  | _ => false

/-- Property access `v[k]`: `none` models the `TypeError` thrown on a
nullish receiver; a missing property or a primitive receiver yields
`undefined`. -/
def jsGet (v : JsVal) (k : String) : Option JsVal :=
  match v with
  | .null => none
  | .undefined => none
  | .obj fields => some ((fields.lookup k).getD .undefined)
  | _ => some .undefined

/-- Property access under a truthiness guard, where the receiver cannot be
nullish, so no `TypeError` can occur. -/
def fieldD (v : JsVal) (k : String) : JsVal :=
  (jsGet v k).getD .undefined

/-- JavaScript `a || b`. -/
def jsOr (a b : JsVal) : JsVal :=
  if truthy a then a else b

/-- The expression `content?.substring(0, 150) + "..."`: a nullish `content` short-circuits
to `undefined`, and `undefined + "..."` concatenates as the string
`"undefined..."`; a string is truncated to its first 150 characters; any
other receiver has no `substring` method and throws (`none`). -/
def excerpt (content : JsVal) : Option JsVal :=
  match content with
  | .null => some (.str ("undefined" ++ "..."))
  | .undefined => some (.str ("undefined" ++ "..."))
  | .str s => some (.str (s.take 150 ++ "..."))
  | _ => none

/-- The per-post mapping of `getPosts` (identical field logic in the
bare-array branch and the single-entity branch):
`{ _id: post._id || post._id, title, author, content, description:
post.description || post.content?.substring(0,150) + "...", createdAt,
updatedAt: post.updatedAt || post.createdAt }`. -/
def mapPost (post : JsVal) : Option JsVal := do
  let pid ← jsGet post "_id"
  let title ← jsGet post "title"
  let author ← jsGet post "author"
  let content ← jsGet post "content"
  let descField ← jsGet post "description"
  let description ←
    if truthy descField then
      pure descField
    else do
      let c ← jsGet post "content"
      excerpt c
  let createdAt ← jsGet post "createdAt"
  let updatedAtField ← jsGet post "updatedAt"
  pure (.obj
    [("_id", jsOr pid pid),
     ("title", title),
     ("author", author),
     ("content", content),
     ("description", description),
     ("createdAt", createdAt),
     ("updatedAt", jsOr updatedAtField createdAt)])

/-- The `{ posts: [], total: 0 }` fallback of `getPosts`. -/
def emptyResult : JsVal :=
  .obj [("posts", .arr []), ("total", .num 0)]

/-- The body of `postsApi.getPosts` after the HTTP call, normalizing
`response.data`; `none` models a thrown `TypeError` (a rejected promise).
Branches in source order: `Array.isArray(data)`; `data && typeof data ===
"object" && data._id`; `data && data.posts`; fallback. -/
def getPostsNormalize (data : JsVal) : Option JsVal :=
  match data with
  | .arr items => do
      let mappedPosts ← items.mapM mapPost
      pure (.obj [("posts", .arr mappedPosts), ("total", .num items.length)])
  | _ =>
      if truthy data && (jsTypeof data == "object")
          && truthy (fieldD data "_id") then do
        let mappedPost ← mapPost data
        pure (.obj [("posts", .arr [mappedPost]), ("total", .num 1)])
      else if truthy data && truthy (fieldD data "posts") then
        pure data
      else
        pure emptyResult

/-- Modelled from the spec wording of the normalization rule, for
comparison with `getPostsNormalize`: "array → wrap with computed total;
single entity-shaped object (has `id`) → wrap as one-element list; object
already exposing a `posts` field → pass through; otherwise → empty
result", where `id` names the identity field (`_id` on the wire), an
entity-shaped object is an object whose identity field holds a truthy
value, and exposing a `posts` field means a truthy value under the key
`posts`.  The per-post mapping is the gateway's own (`mapPost`). -/
def isEntityObject : JsVal → Bool
  | .obj fields => truthy ((fields.lookup "_id").getD .undefined)
  | _ => false

/-- A truthy value exposing a truthy `posts` property. -/
def exposesPosts (data : JsVal) : Bool :=
  truthy data && truthy (fieldD data "posts")

/-- The spec-worded normalization (see `isEntityObject`). -/
def specNormalize (data : JsVal) : Option JsVal :=
  match data with
  | .arr items =>
      (items.mapM mapPost).map fun mappedPosts =>
        .obj [("posts", .arr mappedPosts), ("total", .num items.length)]
  | _ =>
      if isEntityObject data then
        (mapPost data).map fun mappedPost =>
          .obj [("posts", .arr [mappedPost]), ("total", .num 1)]
      else if exposesPosts data then
        some data
      else
        some emptyResult

end TechChall

namespace TechChall

/-! ## Concrete instances used in counterexamples and witnesses -/

def pA : Post :=
  { _id := "a", title := "A", author := "x", content := "ca",
    description := none, createdAt := "T1", updatedAt := "T1" }

def pB : Post :=
  { _id := "b", title := "B", author := "x", content := "cb",
    description := none, createdAt := "T1", updatedAt := "T1" }

def pC : Post :=
  { _id := "c", title := "C", author := "x", content := "cc",
    description := none, createdAt := "T1", updatedAt := "T1" }

def pA2 : Post := { pA with title := "A2", content := "ca2" }

def s0 : PostsState :=
  { posts := [pA], currentPost := some pA, loading := true, error := none,
    lastFetch := some 100, cacheExpiry := 300000 }

def s7 : PostsState :=
  { posts := [pB, pC], currentPost := none, loading := true, error := none,
    lastFetch := some 42, cacheExpiry := 300000 }

def s8 : PostsState :=
  { posts := [pA, pB], currentPost := some pA, loading := true, error := none,
    lastFetch := some 42, cacheExpiry := 300000 }

def sZero : PostsState := { initialState with lastFetch := some 0 }

def sValid : PostsState := { initialState with lastFetch := some 500 }

/-- Discriminator for the one action that stamps `lastFetch`. -/
def isFetchPostsSuccess : PostsAction → Bool
  | .fetchPostsSuccess _ => true
  | _ => false

/-- The frame of a `*_ERROR` transition: `posts` kept, `loading` cleared,
`error` set to the payload, `lastFetch` kept. -/
def errorFrame (now : Int) (s : PostsState) (a : PostsAction) (msg : String) : Prop :=
  (postsReducer now s a).posts = s.posts ∧
  (postsReducer now s a).loading = false ∧
  (postsReducer now s a).error = some msg ∧
  (postsReducer now s a).lastFetch = s.lastFetch

def userU : User := { _id := "u1", name := "N", email := "n@e", role := "student" }

def storeNoRt : BrowserStorage :=
  { accessToken := some "tokA", refreshToken := none, userProfile := some userU }

def storeRt : BrowserStorage :=
  { accessToken := some "tokA", refreshToken := some "rt0", userProfile := some userU }

def newTok : AuthTokens := { accessToken := "newA", refreshToken := some "newR" }

/-- A server post that carries no `description`. -/
def postNoDesc : JsVal :=
  .obj [("_id", .str "1"), ("title", .str "A"), ("content", .str "hello")]

/-- An envelope `{ posts: [postNoDesc], total: 1 }` as a server body. -/
def dataEnv : JsVal :=
  .obj [("posts", .arr [postNoDesc]), ("total", .num 1)]

/-- The value `mapPost postNoDesc` evaluates to this object. -/
def mappedNoDesc : JsVal :=
  .obj [("_id", .str "1"), ("title", .str "A"), ("author", .undefined),
        ("content", .str "hello"), ("description", .str "hello..."),
        ("createdAt", .undefined), ("updatedAt", .undefined)]

/-! ## Claim theorems -/

/-- C1, counterexample: the claim says every `*-error` action preserves
`currentPost`, but `FETCH_POST_ERROR` resets it to `null`
(`PostsContext.tsx` line 99): from a state holding a current post, the
fetch-one error action changes `currentPost`. -/
theorem claim_C1_counterexample :
    (postsReducer 0 s0 (.fetchPostError "boom")).currentPost ≠ s0.currentPost := by
  decide

/-- C1 (amended): every `*-error` action preserves `posts` (and
`lastFetch`), sets `loading := false` and `error := message`; the
fetch-list, create, update and delete error actions also preserve
`currentPost`, while the fetch-one error action resets `currentPost` to
`null`. -/
theorem claim_C1_amended (now : Int) (s : PostsState) (msg : String) :
    errorFrame now s (.fetchPostsError msg) msg ∧
    errorFrame now s (.fetchPostError msg) msg ∧
    errorFrame now s (.createPostError msg) msg ∧
    errorFrame now s (.updatePostError msg) msg ∧
    errorFrame now s (.deletePostError msg) msg ∧
    (postsReducer now s (.fetchPostsError msg)).currentPost = s.currentPost ∧
    (postsReducer now s (.createPostError msg)).currentPost = s.currentPost ∧
    (postsReducer now s (.updatePostError msg)).currentPost = s.currentPost ∧
    (postsReducer now s (.deletePostError msg)).currentPost = s.currentPost ∧
    (postsReducer now s (.fetchPostError msg)).currentPost = none :=
  ⟨⟨rfl, rfl, rfl, rfl⟩, ⟨rfl, rfl, rfl, rfl⟩, ⟨rfl, rfl, rfl, rfl⟩,
   ⟨rfl, rfl, rfl, rfl⟩, ⟨rfl, rfl, rfl, rfl⟩, rfl, rfl, rfl, rfl, rfl⟩

/-- C6, counterexample: the claim says `isCacheValid()` is true whenever
`lastFetch` is non-null and `now - lastFetch < 300000`, but the source
guard `if (!state.lastFetch) return false` is a JavaScript truthiness
check, so the non-null timestamp `0` also yields `false`: at
`lastFetch = 0`, `now = 1000` the claim requires `true` and the code
returns `false`. -/
theorem claim_C6_counterexample :
    sZero.lastFetch = some 0 ∧ sZero.cacheExpiry = 300000 ∧
    ((1000 : Int) - 0 < 300000) ∧ isCacheValid 1000 sZero = false :=
  ⟨rfl, by decide, by decide, rfl⟩

/-- C6 (amended): for a state with `cacheExpiry = 300000`,
`isCacheValid()` returns true iff `lastFetch` is non-null, non-zero, and
`now - lastFetch < 300000`; in particular it returns false whenever
`lastFetch` is null. -/
theorem claim_C6_amended (now : Int) (s : PostsState)
    (h : s.cacheExpiry = 300000) :
    isCacheValid now s = true ↔
      ∃ t, s.lastFetch = some t ∧ t ≠ 0 ∧ now - t < 300000 := by
  cases hl : s.lastFetch with
  | none => simp [isCacheValid, hl]
  | some t =>
      by_cases ht : t = 0
      · subst ht; simp [isCacheValid, hl]
      · simp [isCacheValid, hl, ht, h]

/-- Witness for C6 (amended) at `lastFetch = 500`, `now = 1000`. -/
theorem claim_C6_amended_witness : isCacheValid 1000 sValid = true :=
  (claim_C6_amended 1000 sValid rfl).mpr ⟨500, rfl, by decide, by decide⟩

/-- C7: `lastFetch` is changed only by `FETCH_POSTS_SUCCESS`, which stamps
it with the current time; every other action leaves it unchanged; and
`CREATE_POST_SUCCESS` prepends the new post to `posts`. -/
theorem claim_C7 (now : Int) (s : PostsState) :
    (∀ a, isFetchPostsSuccess a = false →
        (postsReducer now s a).lastFetch = s.lastFetch) ∧
    (∀ posts, (postsReducer now s (.fetchPostsSuccess posts)).lastFetch = some now) ∧
    (∀ p, (postsReducer now s (.createPostSuccess p)).posts = p :: s.posts) := by
  refine ⟨?_, fun _ => rfl, fun _ => rfl⟩
  intro a ha
  cases a <;> simp_all [postsReducer, isFetchPostsSuccess]

/-- Witness for C7: from `posts = [B, C]`, `create-success(A)` yields
`posts = [A, B, C]` with `lastFetch` unchanged. -/
theorem claim_C7_witness :
    (postsReducer 7 s7 (.createPostSuccess pA)).posts = [pA, pB, pC] ∧
    (postsReducer 7 s7 (.createPostSuccess pA)).lastFetch = s7.lastFetch :=
  ⟨by simpa [s7] using (claim_C7 7 s7).2.2 pA,
   (claim_C7 7 s7).1 (.createPostSuccess pA) rfl⟩

/-- C8: `UPDATE_POST_SUCCESS p` keeps the length of `posts`, replaces by
`p` exactly the entries whose `_id` equals `p._id` (position by position),
keeps every other entry, and replaces `currentPost` by `p` exactly when
its `_id` matches. -/
theorem claim_C8 (now : Int) (s : PostsState) (p : Post) :
    (postsReducer now s (.updatePostSuccess p)).posts.length = s.posts.length ∧
    (∀ (i : Nat) (q : Post), s.posts[i]? = some q →
        (postsReducer now s (.updatePostSuccess p)).posts[i]? =
          some (if q._id = p._id then p else q)) ∧
    (s.currentPost = none →
        (postsReducer now s (.updatePostSuccess p)).currentPost = none) ∧
    (∀ c, s.currentPost = some c → c._id = p._id →
        (postsReducer now s (.updatePostSuccess p)).currentPost = some p) ∧
    (∀ c, s.currentPost = some c → c._id ≠ p._id →
        (postsReducer now s (.updatePostSuccess p)).currentPost = some c) := by
  refine ⟨?_, ?_, ?_, ?_, ?_⟩
  · simp [postsReducer]
  · intro i q hq
    simp [postsReducer, List.getElem?_map, hq]
  · intro h; simp [postsReducer, h]
  · intro c hc he; simp [postsReducer, hc, he]
  · intro c hc he; simp [postsReducer, hc, he]

/-- Witness for C8: updating `pA` to `pA2` in `posts = [pA, pB]` with
`currentPost = pA` replaces slot 0 and `currentPost`, keeps slot 1. -/
theorem claim_C8_witness :
    (postsReducer 0 s8 (.updatePostSuccess pA2)).posts[0]? = some pA2 ∧
    (postsReducer 0 s8 (.updatePostSuccess pA2)).posts[1]? = some pB ∧
    (postsReducer 0 s8 (.updatePostSuccess pA2)).currentPost = some pA2 := by
  obtain ⟨-, hget, -, hcur, -⟩ := claim_C8 0 s8 pA2
  refine ⟨?_, ?_, hcur pA rfl rfl⟩
  · simpa [pA, pA2] using hget 0 pA rfl
  · simpa [pB, pA2, pA] using hget 1 pB rfl

/-- C9: after `logout()` both storages are empty (`accessToken`,
`refreshToken` and the cached `user` profile all removed), the in-memory
user is null, and `isAuthenticated` is false, whether or not the remote
logout call succeeded. -/
theorem claim_C9 (remoteOk : Bool) (s : AuthState) :
    (logout remoteOk s).storage.accessToken = none ∧
    (logout remoteOk s).storage.refreshToken = none ∧
    (logout remoteOk s).storage.userProfile = none ∧
    (logout remoteOk s).user = none ∧
    isAuthenticated (logout remoteOk s) = false := by
  cases remoteOk <;> simp [logout, clearTokens, isAuthenticated]

/-- C10: every successful login stores — in memory and in durable storage
— a user whose `role` is `"professor"` and whose `name` is the
server-returned email, regardless of the `role` and `name` the server
actually sent. -/
theorem claim_C10 (response : LoginResponse) (s : AuthState) :
    (loginSuccess response s).user =
      some { _id := response.user._id, name := response.user.email,
             email := response.user.email, role := "professor" } ∧
    (loginSuccess response s).storage.userProfile =
      some { _id := response.user._id, name := response.user.email,
             email := response.user.email, role := "professor" } := by
  constructor <;> rfl

/-- C2, counterexample: the claim says that a not-yet-retried 401 with no
refresh token in durable storage clears all session storage and redirects
to login; in the code the `if (refreshToken)` guard simply falls through,
so nothing is cleared, no redirect happens, and the original error is
rejected with storage intact. -/
theorem claim_C2_counterexample :
    (handleResponseError false (some 401) storeNoRt .fail).store = storeNoRt ∧
    storeNoRt.accessToken ≠ none ∧ storeNoRt.userProfile ≠ none ∧
    (handleResponseError false (some 401) storeNoRt .fail).redirect = none := by
  decide

/-- C2 (amended): for a not-yet-retried 401 — if no refresh token exists
in durable storage, storage is left untouched, no redirect happens, and
the original error is rejected to the caller; if a refresh token exists
but the refresh call fails, all session storage is cleared, the browser is
redirected to `/login`, and the refresh error (not the original error) is
rejected to the caller. -/
theorem claim_C2_amended (store : BrowserStorage) (refresh : RefreshResult) :
    (store.refreshToken = none →
        handleResponseError false (some 401) store refresh =
          { store := store, refreshCalls := 0, redirect := none,
            outcome := .rejectOriginal }) ∧
    (∀ rt, store.refreshToken = some rt →
        handleResponseError false (some 401) store .fail =
          { store := { accessToken := none, refreshToken := none,
                       userProfile := none },
            refreshCalls := 1, redirect := some "/login",
            outcome := .rejectRefreshError }) := by
  constructor
  · intro h; simp [handleResponseError, h]
  · intro rt h; simp [handleResponseError, h]

/-- Witness for C2 (amended) at a storage without and one with a refresh
token. -/
theorem claim_C2_amended_witness :
    handleResponseError false (some 401) storeNoRt .fail =
      { store := storeNoRt, refreshCalls := 0, redirect := none,
        outcome := .rejectOriginal } ∧
    handleResponseError false (some 401) storeRt .fail =
      { store := { accessToken := none, refreshToken := none,
                   userProfile := none },
        refreshCalls := 1, redirect := some "/login",
        outcome := .rejectRefreshError } :=
  ⟨(claim_C2_amended storeNoRt .fail).1 rfl,
   (claim_C2_amended storeRt .fail).2 "rt0" rfl⟩

/-- C3: a not-yet-retried 401 with a refresh token present makes exactly
one refresh call, stores the new access token, and replays the original
request once with `Authorization: Bearer <new token>` and its retry flag
set; any 401 on an already-retried request makes no refresh call and is
rejected to the caller — no loop. -/
theorem claim_C3 (store : BrowserStorage) (rt : String) (newTokens : AuthTokens)
    (h : store.refreshToken = some rt) :
    (handleResponseError false (some 401) store (.ok newTokens)).refreshCalls = 1 ∧
    (handleResponseError false (some 401) store (.ok newTokens)).store.accessToken
      = some newTokens.accessToken ∧
    (handleResponseError false (some 401) store (.ok newTokens)).outcome =
      .replayOriginal ("Bearer " ++ newTokens.accessToken) true ∧
    (∀ (store2 : BrowserStorage) (refresh2 : RefreshResult),
        (handleResponseError true (some 401) store2 refresh2).refreshCalls = 0 ∧
        (handleResponseError true (some 401) store2 refresh2).outcome =
          .rejectOriginal) := by
  refine ⟨?_, ?_, ?_, ?_⟩ <;> simp [handleResponseError, h]

/-- Witness for C3 at a concrete storage and refresh response. -/
theorem claim_C3_witness :
    (handleResponseError false (some 401) storeRt (.ok newTok)).refreshCalls = 1 ∧
    (handleResponseError false (some 401) storeRt (.ok newTok)).outcome =
      .replayOriginal ("Bearer " ++ newTok.accessToken) true :=
  ⟨(claim_C3 storeRt "rt0" newTok rfl).1,
   (claim_C3 storeRt "rt0" newTok rfl).2.2.1⟩

/-- The function `getPostsNormalize` agrees everywhere with the spec-worded
normalization rule. -/
theorem getPosts_eq_spec (data : JsVal) :
    getPostsNormalize data = specNormalize data := by
  cases data <;>
    simp [getPostsNormalize, specNormalize, isEntityObject, exposesPosts,
      fieldD, jsGet, jsTypeof, truthy, Option.map_eq_bind, Function.comp]

/-- C4: for every server body, `postsApi.getPosts` normalizes by the
spec's priority order — bare array → wrap with computed total; entity
object with a truthy identity field → one-element list with total 1;
truthy value with a truthy `posts` field → pass through; anything else →
`{posts: [], total: 0}`. -/
theorem claim_C4 (data : JsVal) :
    getPostsNormalize data = specNormalize data :=
  getPosts_eq_spec data

/-- How `mapPost` fills `description`: the server's own value when truthy,
otherwise the first 150 characters of a string `content` plus `"..."`; in
every accepted case the field is not `undefined`. -/
theorem mapPost_description (post mapped : JsVal)
    (h : mapPost post = some mapped) :
    (truthy (fieldD post "description") = true →
        fieldD mapped "description" = fieldD post "description") ∧
    (∀ s, truthy (fieldD post "description") = false →
        fieldD post "content" = .str s →
        fieldD mapped "description" = .str (s.take 150 ++ "...")) ∧
    fieldD mapped "description" ≠ .undefined := by
  cases post with
  | null => simp [mapPost, jsGet] at h
  | undefined => simp [mapPost, jsGet] at h
  | bool b =>
      simp [mapPost, jsGet, excerpt, truthy] at h
      subst h
      simp [fieldD, jsGet, truthy, List.lookup]
  | num n =>
      simp [mapPost, jsGet, excerpt, truthy] at h
      subst h
      simp [fieldD, jsGet, truthy, List.lookup]
  | str s =>
      simp [mapPost, jsGet, excerpt, truthy] at h
      subst h
      simp [fieldD, jsGet, truthy, List.lookup]
  | arr items =>
      simp [mapPost, jsGet, excerpt, truthy] at h
      subst h
      simp [fieldD, jsGet, truthy, List.lookup]
  | obj fields =>
      by_cases hd : truthy ((fields.lookup "description").getD .undefined) = true
      · simp [mapPost, jsGet, hd] at h
        subst h
        refine ⟨?_, ?_, ?_⟩
        · intro _
          simp [fieldD, jsGet, List.lookup]
        · intro s hfalse _
          simp [fieldD, jsGet] at hfalse
          simp_all
        · simp only [fieldD, jsGet]
          simp [List.lookup]
          intro heq
          rw [heq] at hd
          simp [truthy] at hd
      · rcases hc : (fields.lookup "content").getD .undefined with
          _ | _ | b | n | sc | its | fs <;>
          simp [mapPost, jsGet, hd, hc, excerpt] at h <;>
          subst h <;>
          refine ⟨?_, ?_, ?_⟩ <;>
          simp_all [fieldD, jsGet, truthy, List.lookup]

/-- The gateway `getPosts` passes a non-array, non-entity body with a truthy `posts`
field through unchanged. -/
theorem normalize_passthrough (data : JsVal) (h1 : isArray data = false)
    (h2 : isEntityObject data = false) (h3 : exposesPosts data = true) :
    getPostsNormalize data = some data := by
  rw [getPosts_eq_spec]
  cases data <;> simp_all [specNormalize, isArray]

set_option maxRecDepth 4096 in
/-- C5, counterexample: the claim says every post in every accepted
normalized result has a description, but a body already exposing a
`posts` field is passed through unchanged, deriving nothing: the envelope
`{posts: [post-without-description], total: 1}` is returned as-is and its
post's `description` is `undefined`. -/
theorem claim_C5_counterexample :
    getPostsNormalize dataEnv = some dataEnv ∧
    fieldD dataEnv "posts" = .arr [postNoDesc] ∧
    fieldD postNoDesc "description" = .undefined ∧
    truthy (fieldD postNoDesc "description") = false :=
  ⟨rfl, rfl, rfl, rfl⟩

/-- C5 (amended): in the bare-array and single-entity branches, every
mapped post whose server `description` is falsy and whose `content` is a
string gains `content.take 150 ++ "..."` as description (and the
description field is never `undefined` in a mapped post); posts inside a
passed-through `posts`-envelope are returned unchanged and gain no
description. -/
theorem claim_C5_amended :
    (∀ post mapped, mapPost post = some mapped →
        (truthy (fieldD post "description") = true →
            fieldD mapped "description" = fieldD post "description") ∧
        (∀ s, truthy (fieldD post "description") = false →
            fieldD post "content" = .str s →
            fieldD mapped "description" = .str (s.take 150 ++ "...")) ∧
        fieldD mapped "description" ≠ .undefined) ∧
    (∀ data, isArray data = false → isEntityObject data = false →
        exposesPosts data = true → getPostsNormalize data = some data) :=
  ⟨mapPost_description, normalize_passthrough⟩

set_option maxRecDepth 4096 in
/-- Witness for C5 (amended): the post `{_id: "1", title: "A", content:
"hello"}` gains the description `"hello..."`, and the envelope around it
is passed through unchanged. -/
theorem claim_C5_amended_witness :
    fieldD mappedNoDesc "description" = .str ("hello".take 150 ++ "...") ∧
    getPostsNormalize dataEnv = some dataEnv :=
  ⟨(claim_C5_amended.1 postNoDesc mappedNoDesc rfl).2.1 "hello" rfl rfl,
   claim_C5_amended.2 dataEnv rfl rfl rfl⟩

end TechChall
